import Mathlib

/-!
Shallow embedding of `banking_client.py`: the `TransferRequest` /
`TransferResponse` data models, the error taxonomy, and the `BankingClient`
operations (`authenticate`, `transfer`, `validate_account`,
`get_account_balance`, `list_accounts`, `get_transaction_history`) together
with the shared request helper `_request`.

Modelling conventions:
* JSON scalar values are `JVal`; a parsed JSON body is an association list
  `Json` (Python dicts have unique keys, so first-match lookup is `dict.get`).
* Python floats are modelled as `Rat`; `round(x, 2)` is round-half-to-even
  on the exact rational (Python rounds the underlying binary float, whose
  tie-breaking on decimal ties is representation-dependent; the spec treats
  the tie-break as behaviourally insignificant).
* Python truthiness (`if not x`, `x or y`) is modelled by `pyTruthy`.
* The HTTP transport (`requests.Session.request`) is an abstract function
  from the issued request to an outcome: a completed response (status,
  body text, parsed JSON body when the text is valid JSON), a timeout, a
  connection error, or another request exception.  `raise_for_status`
  raises exactly for statuses in [400, 600).
* Each client operation returns its result (`Except` on the exception
  translation), the post-state of the client (mutation of `_token` /
  `_token_claim` is explicit), and the list of HTTP requests it issued.
* Logging is pure observation and is not modelled.  URL construction
  (`urljoin` of the base URL and the endpoint) is kept abstract: the
  issued request records the endpoint string.  Interpolated `repr` of a
  response dict inside an error message is abbreviated to the fixed
  prefix of the message.
-/

/-- A JSON scalar value as seen through Python's `dict.get`. -/
inductive JVal where
  | str (s : String)
  | num (q : Rat)
  | bool (b : Bool)
  | null
deriving DecidableEq, Repr

/-- A parsed JSON object body (Python dict with unique keys). -/
abbrev Json := List (String × JVal)

/-- `dict.get key`: first binding of `key`, `none` when absent. -/
def jsonGet (j : Json) (k : String) : Option JVal :=
  match j with
  | [] => none
  | (k', v) :: rest => if k' = k then some v else jsonGet rest k

/-- Python truthiness of a JSON value (`bool(x)`). -/
def pyTruthy : JVal → Bool
  | .str s => !s.isEmpty
  | .num q => q != 0
  | .bool b => b
  | .null => false

/-- Python truthiness of an optional value (`None` is falsy). -/
def pyTruthyOpt : Option JVal → Bool
  | none => false
  | some v => pyTruthy v

/-- Python `x or y` on two `dict.get` results. -/
def pyOrOpt (a b : Option JVal) : Option JVal :=
  if pyTruthyOpt a then a else b

/-- Python `str(x)` / f-string interpolation of a JSON value.  (The exact
formatting of numbers is abstracted; no claim depends on it.) -/
def pyStr : JVal → String
  | .str s => s
  | .num q => toString q
  | .bool b => if b then "True" else "False"
  | .null => "None"

/-- Round-half-to-even of a rational to an integer (Python `round(q)`). -/
def roundHalfEven (q : Rat) : Int :=
  let f : Int := Rat.floor q
  let frac : Rat := q - (f : Rat)
  if frac < 1/2 then f
  else if 1/2 < frac then f + 1
  else if f % 2 = 0 then f else f + 1

/-- Python `round(q, 2)`: round to two decimal places. -/
def round2 (q : Rat) : Rat := (roundHalfEven (q * 100) : Rat) / 100

/-- The error taxonomy of `banking_client.py`: `ValueError` (validation),
`BankingAPIError`, and its subclasses `AuthenticationError` and
`TransferError`, each carrying its message. -/
inductive BankingError where
  | validationError (msg : String)
  | apiError (msg : String)
  | authError (msg : String)
  | transferError (msg : String)
deriving DecidableEq, Repr

/-- `TransferRequest` dataclass (fields only; validation is in `make`,
mirroring `__post_init__`). -/
structure TransferRequest where
  from_account : String
  to_account : String
  amount : Rat
deriving DecidableEq, Repr

/-- `TransferRequest.__post_init__`: dataclass construction runs the
validation, so building a `TransferRequest` is the fallible `make`.
`not self.from_account` on a string is the emptiness test; the
`isinstance` checks cannot fail in the typed model. -/
def TransferRequest.make (from_account to_account : String) (amount : Rat) :
    Except BankingError TransferRequest :=
  if from_account = "" then
    .error (.validationError "from_account must be a non-empty string")
  else if to_account = "" then
    .error (.validationError "to_account must be a non-empty string")
  else if amount ≤ 0 then
    .error (.validationError "amount must be greater than 0")
  else if from_account = to_account then
    .error (.validationError "from_account and to_account cannot be the same")
  else
    .ok ⟨from_account, to_account, amount⟩

/-- `TransferRequest.to_dict`. -/
def TransferRequest.to_dict (r : TransferRequest) : Json :=
  [("fromAccount", .str r.from_account),
   ("toAccount", .str r.to_account),
   ("amount", .num (round2 r.amount))]

/-- `TransferResponse` dataclass: six optional fields, all defaulting to
`None`. -/
structure TransferResponse where
  transaction_id : Option JVal := none
  status : Option JVal := none
  message : Option JVal := none
  from_account : Option JVal := none
  to_account : Option JVal := none
  amount : Option JVal := none
deriving DecidableEq, Repr

/-- `TransferResponse.from_dict`: best-effort extraction via `data.get`. -/
def TransferResponse.from_dict (data : Json) : TransferResponse :=
  { transaction_id := jsonGet data "transactionId"
    status := jsonGet data "status"
    message := jsonGet data "message"
    from_account := jsonGet data "fromAccount"
    to_account := jsonGet data "toAccount"
    amount := jsonGet data "amount" }

/-- The mutable state of a `BankingClient` instance: configuration set at
construction plus the `_token` / `_token_claim` pair (both `None` until a
successful `authenticate`). -/
structure ClientState where
  base_url : String
  timeout : Nat
  token : Option JVal := none
  tokenClaim : Option String := none
deriving DecidableEq, Repr

/-- An HTTP request as issued by `_request`: method, endpoint (URL joining
with the base URL is abstracted), optional JSON payload, headers. -/
structure HttpRequest where
  method : String
  endpoint : String
  data : Option Json
  headers : List (String × String)
deriving DecidableEq, Repr

/-- Outcome of one `session.request` call: a completed response (status
code, body text, and the parsed JSON object when the body parses as one),
or one of the `requests` exceptions `_request` handles. -/
inductive HttpResult where
  | response (status : Nat) (text : String) (jsonBody : Option Json)
  | timeout
  | connectionError (msg : String)
  | requestException (msg : String)
deriving DecidableEq, Repr

/-- The transport layer: what `self.session.request` returns for a given
request (retries happen inside the transport and are not observable). -/
abbrev Transport := HttpRequest → HttpResult

/-- The fixed headers `_request` always sends. -/
def baseHeaders : List (String × String) :=
  [("Content-Type", "application/json"), ("Accept", "application/json")]

/-- The headers `_request` sends: the base headers, plus
`Authorization: Bearer <token>` when `require_auth` is set (all call sites
pass `headers=None`, so the update branch is inert). -/
def requestHeaders (st : ClientState) (require_auth : Bool) :
    List (String × String) :=
  baseHeaders ++
    (if require_auth then
      match st.token with
      | some t => [("Authorization", "Bearer " ++ pyStr t)]
      | none => []
    else [])

/-- The message of the pre-flight authentication failure in `_request`. -/
def noTokenMsg : String :=
  "Authentication required but no token available. Call authenticate() first."

/-- `BankingClient._request`: returns the parsed JSON body or the
translated exception, together with the list of HTTP requests actually
issued (empty exactly when the pre-flight auth check fails). -/
def bankingRequest (st : ClientState) (method endpoint : String)
    (data : Option Json) (require_auth : Bool) (transport : Transport) :
    Except BankingError Json × List HttpRequest :=
  if require_auth && !pyTruthyOpt st.token then
    (.error (.authError noTokenMsg), [])
  else
    let req : HttpRequest := ⟨method, endpoint, data, requestHeaders st require_auth⟩
    match transport req with
    | .timeout =>
        (.error (.apiError ("Request timeout after " ++ toString st.timeout ++ " seconds")), [req])
    | .connectionError m =>
        (.error (.apiError ("Connection error: Unable to reach " ++ st.base_url ++
          ". Is the server running? " ++ m)), [req])
    | .requestException m =>
        (.error (.apiError ("Request failed: " ++ m)), [req])
    | .response status text jsonBody =>
        if status = 401 then
          (.error (.authError ("Authentication failed: " ++ text)), [req])
        else if 400 ≤ status ∧ status < 600 then
          (.error (.apiError ("HTTP error " ++ toString status ++ ": " ++ text)), [req])
        else
          match jsonBody with
          | some j => (.ok j, [req])
          | none => (.ok [("raw_response", JVal.str text)], [req])

/-- `BankingClient.authenticate`: POSTs the credentials, extracts
`token or access_token` with Python truthiness, and stores the token and
claim on success.  `except BankingAPIError: raise` re-raises every error
of `_request` unchanged (they are all `BankingAPIError` subclasses); the
interpolated `repr` of the response in the no-token message is
abbreviated. -/
def authenticate (st : ClientState) (username password claim : String)
    (transport : Transport) :
    Except BankingError JVal × ClientState × List HttpRequest :=
  let endpoint := "/authToken?claim=" ++ claim
  let authData : Json := [("username", .str username), ("password", .str password)]
  match bankingRequest st "POST" endpoint (some authData) false transport with
  | (.error e, reqs) => (.error e, st, reqs)
  | (.ok response, reqs) =>
    match pyOrOpt (jsonGet response "token") (jsonGet response "access_token") with
    | some t =>
      if pyTruthy t then
        (.ok t, { st with token := some t, tokenClaim := some claim }, reqs)
      else
        (.error (.authError "No token received in response"), st, reqs)
    | none => (.error (.authError "No token received in response"), st, reqs)

/-- `BankingClient.transfer`: validates via the `TransferRequest`
constructor (a `ValueError` is re-raised before any request), POSTs
`/transfer`, parses the body, and raises `TransferError` with
`message or "Transfer failed"` unless `status == "SUCCESS"`.
`except ValueError / except BankingAPIError: raise` re-raise unchanged. -/
def transfer (st : ClientState) (from_account to_account : String)
    (amount : Rat) (use_auth : Bool) (transport : Transport) :
    Except BankingError TransferResponse × ClientState × List HttpRequest :=
  match TransferRequest.make from_account to_account amount with
  | .error e => (.error e, st, [])
  | .ok transfer_request =>
    match bankingRequest st "POST" "/transfer" (some transfer_request.to_dict)
        use_auth transport with
    | (.error e, reqs) => (.error e, st, reqs)
    | (.ok response_data, reqs) =>
      let transfer_response := TransferResponse.from_dict response_data
      if transfer_response.status = some (JVal.str "SUCCESS") then
        (.ok transfer_response, st, reqs)
      else
        let error_msg :=
          match transfer_response.message with
          | some m => if pyTruthy m then pyStr m else "Transfer failed"
          | none => "Transfer failed"
        (.error (.transferError error_msg), st, reqs)

/-- `BankingClient.validate_account`. -/
def validate_account (st : ClientState) (account_id : String)
    (transport : Transport) :
    Except BankingError Json × ClientState × List HttpRequest :=
  if account_id = "" then
    (.error (.validationError "account_id cannot be empty"), st, [])
  else
    match bankingRequest st "GET" ("/accounts/validate/" ++ account_id)
        none false transport with
    | (r, reqs) => (r, st, reqs)

/-- `BankingClient.get_account_balance`. -/
def get_account_balance (st : ClientState) (account_id : String)
    (transport : Transport) :
    Except BankingError Json × ClientState × List HttpRequest :=
  if account_id = "" then
    (.error (.validationError "account_id cannot be empty"), st, [])
  else
    match bankingRequest st "GET" ("/accounts/balance/" ++ account_id)
        none false transport with
    | (r, reqs) => (r, st, reqs)

/-- `BankingClient.list_accounts`. -/
def list_accounts (st : ClientState) (transport : Transport) :
    Except BankingError Json × ClientState × List HttpRequest :=
  match bankingRequest st "GET" "/accounts" none false transport with
  | (r, reqs) => (r, st, reqs)

/-- `BankingClient.get_transaction_history` (auth required by default). -/
def get_transaction_history (st : ClientState) (transport : Transport)
    (use_auth : Bool := true) :
    Except BankingError Json × ClientState × List HttpRequest :=
  match bankingRequest st "GET" "/transactions/history" none use_auth transport with
  | (r, reqs) => (r, st, reqs)

/-! ## Helper lemmas shared across the verification -/

/-- Valid inputs pass every check of `__post_init__`. -/
theorem TransferRequest.make_valid (f t : String) (a : Rat)
    (hf : f ≠ "") (ht : t ≠ "") (ha : 0 < a) (hft : f ≠ t) :
    TransferRequest.make f t a = .ok ⟨f, t, a⟩ := by
  unfold TransferRequest.make
  rw [if_neg hf, if_neg ht, if_neg (not_le.mpr ha), if_neg hft]

/-- A `ValueError` from the `TransferRequest` constructor is re-raised by
`transfer` before any request is issued. -/
theorem transfer_of_make_error (st : ClientState) (f t : String) (a : Rat)
    (ua : Bool) (tp : Transport) (e : BankingError)
    (h : TransferRequest.make f t a = .error e) :
    transfer st f t a ua tp = (.error e, st, []) := by
  unfold transfer
  rw [h]

/-- When auth is required but the held token is falsy (in particular
`None`), `_request` raises before calling the transport. -/
theorem bankingRequest_no_token (st : ClientState) (m ep : String)
    (d : Option Json) (tp : Transport)
    (hst : pyTruthyOpt st.token = false) :
    bankingRequest st m ep d true tp = (.error (.authError noTokenMsg), []) := by
  unfold bankingRequest
  rw [hst]
  rfl

/-! ## Claim theorems -/

/-- C5: for all non-empty, distinct account identifiers and every amount
strictly greater than zero, constructing a `TransferRequest` succeeds, and
`to_dict` serializes it to the object with keys `fromAccount` and
`toAccount` holding the identifiers unchanged and `amount` holding the
amount rounded to two decimal places. -/
theorem transferRequest_valid_serialization (f t : String) (a : Rat)
    (hf : f ≠ "") (ht : t ≠ "") (hft : f ≠ t) (ha : 0 < a) :
    TransferRequest.make f t a = .ok ⟨f, t, a⟩ ∧
    TransferRequest.to_dict ⟨f, t, a⟩ =
      [("fromAccount", JVal.str f), ("toAccount", JVal.str t),
       ("amount", JVal.num (round2 a))] :=
  ⟨TransferRequest.make_valid f t a hf ht ha hft, rfl⟩

/-- Witness for C5 at `f = "ACC1000"`, `t = "ACC1001"`, `a = 50`. -/
theorem transferRequest_valid_serialization_witness :
    TransferRequest.make "ACC1000" "ACC1001" 50 = .ok ⟨"ACC1000", "ACC1001", 50⟩ ∧
    TransferRequest.to_dict ⟨"ACC1000", "ACC1001", 50⟩ =
      [("fromAccount", JVal.str "ACC1000"), ("toAccount", JVal.str "ACC1001"),
       ("amount", JVal.num (round2 50))] :=
  transferRequest_valid_serialization "ACC1000" "ACC1001" 50
    (by decide) (by decide) (by decide) (by decide)

/-- C7: round-trip — deserializing (via `TransferResponse.from_dict`) the
object produced by `to_dict` of any validly constructed `TransferRequest`
recovers the two account identifiers and the amount rounded to two decimal
places. -/
theorem transfer_roundtrip (f t : String) (a : Rat) (r : TransferRequest)
    (h : TransferRequest.make f t a = .ok r) :
    (TransferResponse.from_dict r.to_dict).from_account = some (JVal.str f) ∧
    (TransferResponse.from_dict r.to_dict).to_account = some (JVal.str t) ∧
    (TransferResponse.from_dict r.to_dict).amount = some (JVal.num (round2 a)) := by
  unfold TransferRequest.make at h
  split_ifs at h
  cases h
  exact ⟨rfl, rfl, rfl⟩

/-- Witness for C7 at `f = "ACC1000"`, `t = "ACC1001"`, `a = 50`. -/
theorem transfer_roundtrip_witness :
    (TransferResponse.from_dict (TransferRequest.to_dict ⟨"ACC1000", "ACC1001", 50⟩)).from_account
      = some (JVal.str "ACC1000") ∧
    (TransferResponse.from_dict (TransferRequest.to_dict ⟨"ACC1000", "ACC1001", 50⟩)).to_account
      = some (JVal.str "ACC1001") ∧
    (TransferResponse.from_dict (TransferRequest.to_dict ⟨"ACC1000", "ACC1001", 50⟩)).amount
      = some (JVal.num (round2 50)) :=
  transfer_roundtrip "ACC1000" "ACC1001" 50 ⟨"ACC1000", "ACC1001", 50⟩ rfl

/-- C2: whenever the amount is non-positive, the accounts coincide, or an
account identifier is empty, the `TransferRequest` constructor raises a
validation error, and `transfer` re-raises it without issuing any HTTP
request (the issued-request list is empty). -/
theorem transfer_validation_rejects (f t : String) (a : Rat)
    (h : a ≤ 0 ∨ f = t ∨ f = "" ∨ t = "") :
    ∃ m, TransferRequest.make f t a = .error (.validationError m) ∧
      ∀ (st : ClientState) (ua : Bool) (tp : Transport),
        transfer st f t a ua tp = (.error (.validationError m), st, []) := by
  have hmk : ∃ m, TransferRequest.make f t a = .error (.validationError m) := by
    unfold TransferRequest.make
    split_ifs with h1 h2 h3 h4
    · exact ⟨_, rfl⟩
    · exact ⟨_, rfl⟩
    · exact ⟨_, rfl⟩
    · exact ⟨_, rfl⟩
    · rcases h with ha | hft | hf | ht
      · exact absurd ha h3
      · exact absurd hft h4
      · exact absurd hf h1
      · exact absurd ht h2
  obtain ⟨m, hm⟩ := hmk
  exact ⟨m, hm, fun st ua tp => transfer_of_make_error st f t a ua tp _ hm⟩

/-- Witness for C2 at identical accounts `"ACC1000"` and amount `50`. -/
theorem transfer_validation_rejects_witness :
    ∃ m, TransferRequest.make "ACC1000" "ACC1000" 50 = .error (.validationError m) ∧
      ∀ (st : ClientState) (ua : Bool) (tp : Transport),
        transfer st "ACC1000" "ACC1000" 50 ua tp = (.error (.validationError m), st, []) :=
  transfer_validation_rejects "ACC1000" "ACC1000" 50 (Or.inr (Or.inl rfl))

/-- C3: any operation that requires authentication while the client holds
no token — the shared helper with `require_auth`, `transfer` with
`use_auth = true` (on inputs passing validation), and
`get_transaction_history` with its default `use_auth = true` — raises an
`AuthenticationError` immediately and issues no HTTP request. -/
theorem auth_required_without_token (st : ClientState) (hst : st.token = none) :
    (∀ (m ep : String) (d : Option Json) (tp : Transport),
      bankingRequest st m ep d true tp = (.error (.authError noTokenMsg), [])) ∧
    (∀ (f t : String) (a : Rat) (r : TransferRequest) (tp : Transport),
      TransferRequest.make f t a = .ok r →
      transfer st f t a true tp = (.error (.authError noTokenMsg), st, [])) ∧
    (∀ tp : Transport,
      get_transaction_history st tp = (.error (.authError noTokenMsg), st, [])) := by
  have htok : pyTruthyOpt st.token = false := by rw [hst]; rfl
  refine ⟨fun m ep d tp => bankingRequest_no_token st m ep d tp htok, ?_, ?_⟩
  · intro f t a r tp hmk
    unfold transfer
    simp only [hmk]
    rw [bankingRequest_no_token st "POST" "/transfer" (some r.to_dict) tp htok]
  · intro tp
    unfold get_transaction_history
    rw [bankingRequest_no_token st _ _ _ tp htok]

/-- Witness for C3 on a fresh client. -/
theorem auth_required_without_token_witness :
    transfer ⟨"http://localhost:8123", 30, none, none⟩ "ACC1000" "ACC1001" 50 true
        (fun _ => .response 200 "" none)
      = (.error (.authError noTokenMsg), ⟨"http://localhost:8123", 30, none, none⟩, []) ∧
    get_transaction_history ⟨"http://localhost:8123", 30, none, none⟩
        (fun _ => .response 200 "" none)
      = (.error (.authError noTokenMsg), ⟨"http://localhost:8123", 30, none, none⟩, []) :=
  ⟨(auth_required_without_token ⟨"http://localhost:8123", 30, none, none⟩ rfl).2.1
      "ACC1000" "ACC1001" 50 ⟨"ACC1000", "ACC1001", 50⟩ (fun _ => .response 200 "" none) rfl,
   (auth_required_without_token ⟨"http://localhost:8123", 30, none, none⟩ rfl).2.2
      (fun _ => .response 200 "" none)⟩

/-- C9: the stored token/claim pair is never modified by `transfer`,
`validate_account`, `get_account_balance`, `list_accounts` or
`get_transaction_history` (their post-state is exactly the pre-state),
and no operation clears the token: even `authenticate` leaves the token
unchanged or sets it to some value, never resetting it to `None`. -/
theorem client_state_frame (st : ClientState) (tp : Transport) :
    (∀ (f t : String) (a : Rat) (ua : Bool), (transfer st f t a ua tp).2.1 = st) ∧
    (∀ account_id : String, (validate_account st account_id tp).2.1 = st) ∧
    (∀ account_id : String, (get_account_balance st account_id tp).2.1 = st) ∧
    (list_accounts st tp).2.1 = st ∧
    (∀ ua : Bool, (get_transaction_history st tp ua).2.1 = st) ∧
    (∀ u p c : String,
      (authenticate st u p c tp).2.1.token = st.token ∨
      ∃ v, (authenticate st u p c tp).2.1.token = some v) := by
  refine ⟨?_, ?_, ?_, ?_, ?_, ?_⟩
  · intro f t a ua
    unfold transfer
    split
    · rfl
    · split
      · rfl
      · dsimp only
        split
        · rfl
        · rfl
  · intro account_id
    unfold validate_account
    split <;> rfl
  · intro account_id
    unfold get_account_balance
    split <;> rfl
  · rfl
  · intro ua
    rfl
  · intro u p c
    unfold authenticate
    dsimp only
    split
    · left; rfl
    · split
      · split
        · right; exact ⟨_, rfl⟩
        · left; rfl
      · left; rfl

/-- C10: `authenticate` is atomic on the client state — on any error the
token and claim are exactly what they were before the call, and on success
the post-state is the pre-state with the token and claim assigned. -/
theorem authenticate_atomic (st : ClientState) (u p c : String) (tp : Transport) :
    (∀ (e : BankingError) (st' : ClientState) (reqs : List HttpRequest),
      authenticate st u p c tp = (.error e, st', reqs) → st' = st) ∧
    (∀ (v : JVal) (st' : ClientState) (reqs : List HttpRequest),
      authenticate st u p c tp = (.ok v, st', reqs) →
      st' = { st with token := some v, tokenClaim := some c }) := by
  constructor
  · intro e st' reqs h
    unfold authenticate at h
    dsimp only at h
    split at h
    · simp only [Prod.mk.injEq] at h
      exact h.2.1.symm
    · split at h
      · split_ifs at h
        · simp at h
        · simp only [Prod.mk.injEq] at h
          exact h.2.1.symm
      · simp only [Prod.mk.injEq] at h
        exact h.2.1.symm
  · intro v st' reqs h
    unfold authenticate at h
    dsimp only at h
    split at h
    · simp at h
    · split at h
      · split_ifs at h
        · simp only [Prod.mk.injEq, Except.ok.injEq] at h
          obtain ⟨h1, h2, -⟩ := h
          rw [← h2, h1]
        · simp at h
      · simp at h

/-- Witness for C10: a 500 response leaves a fresh client's state intact. -/
theorem authenticate_atomic_witness :
    (authenticate ⟨"http://localhost:8123", 30, none, none⟩ "bob" "secret" "transfer"
        (fun _ => .response 500 "server error" none)).2.1
      = ⟨"http://localhost:8123", 30, none, none⟩ :=
  (authenticate_atomic ⟨"http://localhost:8123", 30, none, none⟩ "bob" "secret" "transfer"
      (fun _ => .response 500 "server error" none)).1
    (.apiError "HTTP error 500: server error") _
    [⟨"POST", "/authToken?claim=transfer",
      some [("username", JVal.str "bob"), ("password", JVal.str "secret")],
      requestHeaders ⟨"http://localhost:8123", 30, none, none⟩ false⟩] rfl

/-- When the pre-flight auth check passes, `_request` issues exactly one
HTTP request, with the headers built from the client state. -/
theorem bankingRequest_reqs (st : ClientState) (m ep : String)
    (d : Option Json) (ra : Bool) (tp : Transport)
    (h : (ra && !pyTruthyOpt st.token) = false) :
    (bankingRequest st m ep d ra tp).2 = [⟨m, ep, d, requestHeaders st ra⟩] := by
  unfold bankingRequest
  rw [h, if_neg Bool.false_ne_true]
  dsimp only
  split
  · rfl
  · rfl
  · rfl
  · split_ifs
    · rfl
    · rfl
    · split <;> rfl

/-- Every error `_request` raises is an `AuthenticationError` or a plain
`BankingAPIError` (never a `ValueError` or `TransferError`). -/
theorem bankingRequest_error_taxonomy (st : ClientState) (m ep : String)
    (d : Option Json) (ra : Bool) (tp : Transport) (e : BankingError)
    (h : (bankingRequest st m ep d ra tp).1 = .error e) :
    (∃ s, e = .authError s) ∨ (∃ s, e = .apiError s) := by
  unfold bankingRequest at h
  split at h
  · simp at h
    subst h
    exact Or.inl ⟨_, rfl⟩
  · dsimp only at h
    split at h
    · simp at h
      subst h
      exact Or.inr ⟨_, rfl⟩
    · simp at h
      subst h
      exact Or.inr ⟨_, rfl⟩
    · simp at h
      subst h
      exact Or.inr ⟨_, rfl⟩
    · split_ifs at h
      · simp at h
        subst h
        exact Or.inl ⟨_, rfl⟩
      · simp at h
        subst h
        exact Or.inr ⟨_, rfl⟩
      · split at h <;> simp at h

/-- C6 (counterexample to the claim as stated): a completed response with
the non-2xx status 304 does not raise — `raise_for_status` only raises for
statuses in [400, 600), so `_request` returns the parsed body. -/
theorem request_304_counterexample :
    (bankingRequest ⟨"http://localhost:8123", 30, none, none⟩ "GET" "/accounts" none false
        (fun _ => .response 304 "cached" (some [("cached", JVal.bool true)]))).1
      = .ok [("cached", JVal.bool true)] := rfl

/-- C6 (amended): for every request issued by the shared helper that
completes with a response, status 401 raises an `AuthenticationError`,
and any other status in [400, 600) raises a generic API error carrying
the status and body text; statuses outside [400, 600) are not treated as
errors. -/
theorem request_http_error_translation (st : ClientState) (m ep : String)
    (d : Option Json) (ra : Bool) (tp : Transport)
    (status : Nat) (text : String) (jb : Option Json)
    (hauth : (ra && !pyTruthyOpt st.token) = false)
    (htp : tp ⟨m, ep, d, requestHeaders st ra⟩ = .response status text jb) :
    (status = 401 →
      bankingRequest st m ep d ra tp =
        (.error (.authError ("Authentication failed: " ++ text)),
         [⟨m, ep, d, requestHeaders st ra⟩])) ∧
    (status ≠ 401 → 400 ≤ status → status < 600 →
      bankingRequest st m ep d ra tp =
        (.error (.apiError ("HTTP error " ++ toString status ++ ": " ++ text)),
         [⟨m, ep, d, requestHeaders st ra⟩])) := by
  unfold bankingRequest
  rw [hauth, if_neg Bool.false_ne_true]
  dsimp only
  rw [htp]
  dsimp only
  constructor
  · intro hs
    rw [if_pos hs]
  · intro hs h4 h6
    rw [if_neg hs, if_pos ⟨h4, h6⟩]

/-- Witness for C6 (amended) at a 401 and at a 503 response. -/
theorem request_http_error_translation_witness :
    bankingRequest ⟨"http://localhost:8123", 30, none, none⟩ "GET" "/accounts" none false
        (fun _ => .response 401 "denied" none)
      = (.error (.authError ("Authentication failed: " ++ "denied")),
         [⟨"GET", "/accounts", none,
           requestHeaders ⟨"http://localhost:8123", 30, none, none⟩ false⟩]) ∧
    bankingRequest ⟨"http://localhost:8123", 30, none, none⟩ "GET" "/accounts" none false
        (fun _ => .response 503 "unavailable" none)
      = (.error (.apiError ("HTTP error " ++ toString 503 ++ ": " ++ "unavailable")),
         [⟨"GET", "/accounts", none,
           requestHeaders ⟨"http://localhost:8123", 30, none, none⟩ false⟩]) :=
  ⟨(request_http_error_translation ⟨"http://localhost:8123", 30, none, none⟩ "GET" "/accounts"
      none false (fun _ => .response 401 "denied" none) 401 "denied" none rfl rfl).1 rfl,
   (request_http_error_translation ⟨"http://localhost:8123", 30, none, none⟩ "GET" "/accounts"
      none false (fun _ => .response 503 "unavailable" none) 503 "unavailable" none rfl rfl).2
     (by decide) (by decide) (by decide)⟩

/-- C8: a completed 2xx response whose body is not valid JSON does not
raise — `_request` returns the fallback object `{"raw_response": text}`. -/
theorem request_non_json_fallback (st : ClientState) (m ep : String)
    (d : Option Json) (ra : Bool) (tp : Transport)
    (status : Nat) (text : String)
    (hauth : (ra && !pyTruthyOpt st.token) = false)
    (htp : tp ⟨m, ep, d, requestHeaders st ra⟩ = .response status text none)
    (h2 : 200 ≤ status) (h3 : status < 300) :
    bankingRequest st m ep d ra tp =
      (.ok [("raw_response", JVal.str text)],
       [⟨m, ep, d, requestHeaders st ra⟩]) := by
  unfold bankingRequest
  rw [hauth, if_neg Bool.false_ne_true]
  dsimp only
  rw [htp]
  dsimp only
  rw [if_neg (by omega : ¬status = 401),
    if_neg (by omega : ¬(400 ≤ status ∧ status < 600))]

/-- Witness for C8 at a 200 response with a non-JSON body. -/
theorem request_non_json_fallback_witness :
    bankingRequest ⟨"http://localhost:8123", 30, none, none⟩ "GET" "/accounts" none false
        (fun _ => .response 200 "<html>ok</html>" none)
      = (.ok [("raw_response", JVal.str "<html>ok</html>")],
         [⟨"GET", "/accounts", none,
           requestHeaders ⟨"http://localhost:8123", 30, none, none⟩ false⟩]) :=
  request_non_json_fallback ⟨"http://localhost:8123", 30, none, none⟩ "GET" "/accounts"
    none false (fun _ => .response 200 "<html>ok</html>" none) 200 "<html>ok</html>"
    rfl rfl (by decide) (by decide)

/-- C1 (counterexample to the claim as stated): on a failed transfer whose
response carries a `message` field holding the empty string, the raised
`TransferError` message is the generic `"Transfer failed"`, not the
(present) response message, because `message or "Transfer failed"`
discards falsy values. -/
theorem transfer_empty_message_counterexample :
    (transfer ⟨"http://localhost:8123", 30, none, none⟩ "ACC1000" "ACC1001" 50 false
        (fun _ => .response 200 ""
          (some [("status", JVal.str "FAILED"), ("message", JVal.str "")]))).1
      = .error (.transferError "Transfer failed") ∧
    jsonGet [("status", JVal.str "FAILED"), ("message", JVal.str "")] "message"
      = some (JVal.str "") ∧
    ("Transfer failed" : String) ≠ "" :=
  ⟨rfl, rfl, by decide⟩

/-- C1 (amended): for every transfer call whose HTTP request succeeds
with parsed body `j`, if `j`'s status is `"SUCCESS"` then `transfer`
returns the parsed `TransferResponse`; otherwise it raises a
`TransferError` whose message is the response's `message` field when that
field is present and truthy (a non-empty string), and the generic
`"Transfer failed"` when the field is absent or falsy. -/
theorem transfer_status_handling (st : ClientState) (f t : String) (a : Rat)
    (ua : Bool) (tp : Transport) (r : TransferRequest) (j : Json)
    (reqs : List HttpRequest)
    (hmk : TransferRequest.make f t a = .ok r)
    (hreq : bankingRequest st "POST" "/transfer" (some r.to_dict) ua tp = (.ok j, reqs)) :
    (jsonGet j "status" = some (JVal.str "SUCCESS") →
      transfer st f t a ua tp = (.ok (TransferResponse.from_dict j), st, reqs)) ∧
    (jsonGet j "status" ≠ some (JVal.str "SUCCESS") →
      (∀ v, jsonGet j "message" = some v → pyTruthy v = true →
        transfer st f t a ua tp = (.error (.transferError (pyStr v)), st, reqs)) ∧
      (pyTruthyOpt (jsonGet j "message") = false →
        transfer st f t a ua tp = (.error (.transferError "Transfer failed"), st, reqs))) := by
  have hstat : (TransferResponse.from_dict j).status = jsonGet j "status" := rfl
  have hmsg : (TransferResponse.from_dict j).message = jsonGet j "message" := rfl
  unfold transfer
  simp only [hmk, hreq]
  constructor
  · intro hs
    rw [if_pos (show (TransferResponse.from_dict j).status = some (JVal.str "SUCCESS") by
      rw [hstat]; exact hs)]
  · intro hs
    rw [if_neg (show ¬(TransferResponse.from_dict j).status = some (JVal.str "SUCCESS") by
      rw [hstat]; exact hs)]
    constructor
    · intro v hv htr
      simp only [hmsg, hv]
      rw [if_pos htr]
    · intro hfalse
      cases hOr : jsonGet j "message" with
      | none =>
        simp only [hmsg, hOr]
      | some v =>
        have hfv : pyTruthy v = false := by
          rw [hOr] at hfalse
          simpa [pyTruthyOpt] using hfalse
        simp only [hmsg, hOr]
        rw [if_neg (by simp [hfv])]

/-- Witness for C1 (amended) at a successful transfer response. -/
theorem transfer_status_handling_witness :
    transfer ⟨"http://localhost:8123", 30, none, none⟩ "ACC1000" "ACC1001" 50 false
        (fun _ => .response 200 ""
          (some [("status", JVal.str "SUCCESS"), ("transactionId", JVal.str "tx-1")]))
      = (.ok (TransferResponse.from_dict
            [("status", JVal.str "SUCCESS"), ("transactionId", JVal.str "tx-1")]),
         ⟨"http://localhost:8123", 30, none, none⟩,
         [⟨"POST", "/transfer",
           some (TransferRequest.to_dict ⟨"ACC1000", "ACC1001", 50⟩),
           requestHeaders ⟨"http://localhost:8123", 30, none, none⟩ false⟩]) :=
  (transfer_status_handling ⟨"http://localhost:8123", 30, none, none⟩ "ACC1000" "ACC1001" 50
      false
      (fun _ => .response 200 ""
        (some [("status", JVal.str "SUCCESS"), ("transactionId", JVal.str "tx-1")]))
      ⟨"ACC1000", "ACC1001", 50⟩
      [("status", JVal.str "SUCCESS"), ("transactionId", JVal.str "tx-1")]
      [⟨"POST", "/transfer",
        some (TransferRequest.to_dict ⟨"ACC1000", "ACC1001", 50⟩),
        requestHeaders ⟨"http://localhost:8123", 30, none, none⟩ false⟩]
      rfl rfl).1 rfl

/-- C4 (counterexample to the claim as stated): a response containing a
`token` field whose value is the empty string makes `authenticate` raise
an `AuthenticationError`, although the response does contain the field —
`token or access_token` followed by `if not token` discards falsy
values. -/
theorem authenticate_empty_token_counterexample :
    (authenticate ⟨"http://localhost:8123", 30, none, none⟩ "bob" "secret" "transfer"
        (fun _ => .response 200 "" (some [("token", JVal.str "")]))).1
      = .error (.authError "No token received in response") ∧
    jsonGet [("token", JVal.str "")] "token" = some (JVal.str "") :=
  ⟨rfl, rfl⟩

/-- C4 (amended): when the HTTP call completes successfully, `authenticate`
succeeds exactly when the response holds a truthy `token` (or, failing
that, a truthy `access_token`) value; on success it returns that token and
stores it so that every subsequent authenticated request carries the
header `Authorization: Bearer <token>`; when the extracted token is
missing or falsy it raises an `AuthenticationError`; and every error
`authenticate` raises is an `AuthenticationError` or a plain API error,
never an untranslated failure. -/
theorem authenticate_token_extraction (st : ClientState) (u p c : String) (tp : Transport) :
    (∀ (j : Json) (reqs : List HttpRequest),
      bankingRequest st "POST" ("/authToken?claim=" ++ c)
          (some [("username", JVal.str u), ("password", JVal.str p)]) false tp
        = (.ok j, reqs) →
      (∀ v, pyOrOpt (jsonGet j "token") (jsonGet j "access_token") = some v →
        pyTruthy v = true →
        authenticate st u p c tp =
          (.ok v, { st with token := some v, tokenClaim := some c }, reqs) ∧
        ∀ (m2 ep2 : String) (d2 : Option Json) (tp2 : Transport),
          (bankingRequest { st with token := some v, tokenClaim := some c } m2 ep2 d2 true tp2).2
            = [⟨m2, ep2, d2, baseHeaders ++ [("Authorization", "Bearer " ++ pyStr v)]⟩]) ∧
      (pyTruthyOpt (pyOrOpt (jsonGet j "token") (jsonGet j "access_token")) = false →
        authenticate st u p c tp
          = (.error (.authError "No token received in response"), st, reqs))) ∧
    (∀ e : BankingError, (authenticate st u p c tp).1 = .error e →
      (∃ s, e = .authError s) ∨ (∃ s, e = .apiError s)) := by
  constructor
  · intro j reqs hreq
    constructor
    · intro v hv htr
      constructor
      · unfold authenticate
        dsimp only
        simp only [hreq, hv]
        rw [if_pos htr]
      · intro m2 ep2 d2 tp2
        have hpass :
            (true && !pyTruthyOpt ({ st with token := some v, tokenClaim := some c } : ClientState).token)
              = false := by
          simp [pyTruthyOpt, htr]
        rw [bankingRequest_reqs _ _ _ _ _ _ hpass]
        rfl
    · intro hfalse
      unfold authenticate
      dsimp only
      simp only [hreq]
      cases hOr : pyOrOpt (jsonGet j "token") (jsonGet j "access_token") with
      | none => rfl
      | some v =>
        have hfv : pyTruthy v = false := by
          rw [hOr] at hfalse
          simpa [pyTruthyOpt] using hfalse
        dsimp only
        rw [if_neg (by simp [hfv])]
  · intro e he
    unfold authenticate at he
    dsimp only at he
    split at he
    next e1 reqs1 heq =>
      simp at he
      subst he
      exact bankingRequest_error_taxonomy st "POST" _ _ false tp e1 (by rw [heq])
    next response reqs1 heq =>
      split at he
      next v heqOr =>
        split_ifs at he
        simp at he
        subst he
        exact Or.inl ⟨_, rfl⟩
      next heqOr =>
        simp at he
        subst he
        exact Or.inl ⟨_, rfl⟩

/-- Witness for C4 (amended): authenticating against `{"token": "abc"}`
returns `"abc"`, stores it, and a later authenticated request carries
`Authorization: Bearer abc`. -/
theorem authenticate_token_extraction_witness :
    authenticate ⟨"http://localhost:8123", 30, none, none⟩ "bob" "secret" "transfer"
        (fun _ => .response 200 "" (some [("token", JVal.str "abc")]))
      = (.ok (JVal.str "abc"),
         ⟨"http://localhost:8123", 30, some (JVal.str "abc"), some "transfer"⟩,
         [⟨"POST", "/authToken?claim=transfer",
           some [("username", JVal.str "bob"), ("password", JVal.str "secret")],
           requestHeaders ⟨"http://localhost:8123", 30, none, none⟩ false⟩]) ∧
    (bankingRequest ⟨"http://localhost:8123", 30, some (JVal.str "abc"), some "transfer"⟩
        "GET" "/transactions/history" none true (fun _ => .response 200 "" none)).2
      = [⟨"GET", "/transactions/history", none,
          baseHeaders ++ [("Authorization", "Bearer " ++ pyStr (JVal.str "abc"))]⟩] :=
  have h :=
    ((authenticate_token_extraction ⟨"http://localhost:8123", 30, none, none⟩
        "bob" "secret" "transfer"
        (fun _ => .response 200 "" (some [("token", JVal.str "abc")]))).1
      [("token", JVal.str "abc")]
      [⟨"POST", "/authToken?claim=transfer",
        some [("username", JVal.str "bob"), ("password", JVal.str "secret")],
        requestHeaders ⟨"http://localhost:8123", 30, none, none⟩ false⟩]
      rfl).1 (JVal.str "abc") rfl rfl
  ⟨h.1, h.2 "GET" "/transactions/history" none (fun _ => .response 200 "" none)⟩
